import Mathlib

/-!
# Verification of the subscription/payments core

Shallow embedding of the subscription lifecycle engine of the
SocialBeats payments-and-suscriptions service, together with proofs about
its plan catalog, add-on compatibility pruning, plan-change orchestration
(updateSubscriptionPlan / completeUpgrade), webhook reconciliation handlers
and the user-deletion event consumer.

Conventions of the embedding:
* JavaScript numbers holding plan prices are modelled in exact euro cents
  (integers); the catalog prices (0, 9.99, 29.99 EUR) are exact in both
  representations, the code only subtracts prices and compares the result
  with zero, and scaling by 100 preserves both operations.
* Fields that can be undefined in JavaScript are Option values, and the
  JavaScript strict equality between possibly-undefined strings is equality
  of the corresponding Option String values.
* External calls (Stripe, the SPACE entitlement service, Mongo persistence)
  are modelled by an explicit environment of oracle results fixed for the
  duration of one request; a JavaScript throw is the error case of Except.
* Saves to the database always succeed (the spec excludes the persistence
  engine); the stored state is threaded separately from the in-memory
  document so that a throw after an unsaved mutation loses that mutation,
  as it does in mongoose.
-/

namespace SocialBeats

/-- A JavaScript exception, reduced to its message (the only part the code
inspects, via a substring test). -/
structure JsError where
  msg : String
deriving DecidableEq, Repr

/-- JavaScript test for a substring, used by the controller on error
messages: splitting on the needle yields more than one piece exactly when
the needle occurs. -/
def jsIncludes (hay needle : String) : Bool :=
  (hay.splitOn needle).length > 1

/-! ## Plan catalog (src/config/plans.config.js, SocialBeats-1.0 version)

The catalog used by the controller is the version that also defines the
add-on table (the controller imports isAddOnAvailableForPlan from it).
Plans are FREE (0 EUR), PRO (9.99 EUR) and STUDIO (29.99 EUR).
Stripe price ids come from the environment, hence are modelled as an
explicit environment of optional strings. -/

/-- The STRIPE_PRICE_* environment variables feeding the catalog. -/
structure PriceEnv where
  free : Option String
  pro : Option String
  studio : Option String
  addonDecoratives : Option String
  addonPromotedBeat : Option String
  addonExtraDashboard : Option String
deriving DecidableEq, Repr

/-- Object.keys(PLANS), in insertion order. -/
def planNames : List String := ["FREE", "PRO", "STUDIO"]

/-- getValidPlans(). -/
def getValidPlans : List String := planNames

/-- isValidPlan(planName): planName in PLANS. -/
def isValidPlan (planName : String) : Bool :=
  planNames.contains planName

/-- PLANS[planName]?.price || 0, in euro cents (0, 9.99 and 29.99 EUR). -/
def getPlanPrice (planName : String) : Int :=
  if planName = "FREE" then 0
  else if planName = "PRO" then 999
  else if planName = "STUDIO" then 2999
  else 0

/-- PLANS[planName]?.stripePriceId || null. -/
def getStripePriceId (env : PriceEnv) (planName : String) : Option String :=
  if planName = "FREE" then env.free
  else if planName = "PRO" then env.pro
  else if planName = "STUDIO" then env.studio
  else none

/-- Result object of comparePlans. -/
structure PlanComparison where
  isUpgrade : Bool
  isDowngrade : Bool
  isSamePlan : Bool
  priceDiff : Int
  currentPrice : Int
  newPrice : Int
deriving DecidableEq, Repr

/-- comparePlans(currentPlan, newPlan) from plans.config.js. -/
def comparePlans (currentPlan newPlan : String) : PlanComparison :=
  let currentPrice := getPlanPrice currentPlan
  let newPrice := getPlanPrice newPlan
  let priceDiff := newPrice - currentPrice
  { isUpgrade := decide (priceDiff > 0)
    isDowngrade := decide (priceDiff < 0)
    isSamePlan := decide (priceDiff = 0)
    priceDiff := priceDiff
    currentPrice := currentPrice
    newPrice := newPrice }

/-- getPlanNameFromPriceId(priceId): first plan whose stripePriceId is
strictly equal to priceId; the argument can itself be undefined, and
JavaScript strict equality between possibly-undefined strings is equality
of Option String. -/
def getPlanNameFromPriceId (env : PriceEnv) (priceId : Option String) :
    Option String :=
  if env.free = priceId then some "FREE"
  else if env.pro = priceId then some "PRO"
  else if env.studio = priceId then some "STUDIO"
  else none

/-- getDefaultFreePlan(). -/
def getDefaultFreePlan : String := "FREE"

/-- FREE_PLAN constant. -/
def FREE_PLAN : String := getDefaultFreePlan

/-! ## Add-on catalog -/

/-- Object.keys(ADDONS). -/
def addonNames : List String := ["decoratives", "promotedBeat", "extraDashboard"]

/-- ADDONS[name].availableFor; unknown add-ons have no availability. -/
def addonAvailableFor (addonName : String) : List String :=
  if addonName = "decoratives" then ["FREE", "PRO"]
  else if addonName = "promotedBeat" then ["PRO", "STUDIO"]
  else if addonName = "extraDashboard" then ["FREE", "PRO"]
  else []

/-- isAddOnAvailableForPlan(addonName, planName): false for an unknown
add-on, else membership of the plan in availableFor. -/
def isAddOnAvailableForPlan (addonName planName : String) : Bool :=
  if addonNames.contains addonName then
    (addonAvailableFor addonName).contains planName
  else false

/-! ## Stripe service lookups (src/services/stripeService.js) -/

/-- getPriceIdForPlan(planType): throws when the catalog has no price id. -/
def getPriceIdForPlan (env : PriceEnv) (planType : String) :
    Except JsError String :=
  match getStripePriceId env planType with
  | none => .error { msg := "Price ID not configured for plan: " ++ planType }
  | some priceId => .ok priceId

/-- getPlanTypeFromPriceId(priceId): reverse lookup with literal default
BASIC when the price id maps to no catalog plan. -/
def getPlanTypeFromPriceId (env : PriceEnv) (priceId : Option String) :
    String :=
  (getPlanNameFromPriceId env priceId).getD "BASIC"

/-! ## Subscription record (src/models/Subscription.js data model) -/

/-- One entry of activeAddOns. -/
structure AddOnEntry where
  name : String
  stripeSubscriptionItemId : Option String
  purchasedAt : Int
  status : String
deriving DecidableEq, Repr

/-- The metadata keys the controller reads and writes on the record. -/
structure RecordMetadata where
  pendingPlanChange : Option String
  pendingChangeDate : Option Int
  scheduleId : Option String
deriving DecidableEq, Repr

/-- The empty metadata bag. -/
def RecordMetadata.empty : RecordMetadata :=
  { pendingPlanChange := none, pendingChangeDate := none, scheduleId := none }

/-- The locally stored subscription record. -/
structure SubscriptionRecord where
  userId : String
  username : String
  email : String
  stripeCustomerId : Option String
  stripeSubscriptionId : Option String
  stripePriceId : Option String
  status : String
  planType : String
  activeAddOns : List AddOnEntry
  currentPeriodStart : Option Int
  currentPeriodEnd : Option Int
  cancelAtPeriodEnd : Bool
  canceledAt : Option Int
  metadata : RecordMetadata
deriving DecidableEq, Repr

/-! ## removeIncompatibleAddOns (subscriptionController.js lines 34-75)

The loop skips entries whose status is not active, marks active entries
whose add-on is not available for the new plan as canceled (after a
best-effort Stripe item removal whose failure is ignored), and leaves
active compatible entries untouched, collecting the two name lists. -/

/-- Effect of one loop iteration on one entry. -/
def pruneEntry (newPlanType : String) (e : AddOnEntry) : AddOnEntry :=
  if e.status = "active" ∧ ¬ isAddOnAvailableForPlan e.name newPlanType then
    { e with status := "canceled" }
  else e

/-- Name lists returned by removeIncompatibleAddOns. -/
structure PruneResult where
  removedAddOns : List String
  remainingAddOns : List String
deriving DecidableEq, Repr

/-- removeIncompatibleAddOns(subscription, newPlanType), restricted to its
effect on the record and the returned name lists (the Stripe item removal
is best effort and does not influence either). -/
def removeIncompatibleAddOns (r : SubscriptionRecord) (newPlanType : String) :
    PruneResult × SubscriptionRecord :=
  let removed := (r.activeAddOns.filter
    (fun e => e.status = "active" ∧
      ¬ isAddOnAvailableForPlan e.name newPlanType)).map (fun e => e.name)
  let remaining := (r.activeAddOns.filter
    (fun e => e.status = "active" ∧
      isAddOnAvailableForPlan e.name newPlanType)).map (fun e => e.name)
  ({ removedAddOns := removed, remainingAddOns := remaining },
   { r with activeAddOns := r.activeAddOns.map (pruneEntry newPlanType) })

/-- The invariant of the data model: every add-on entry with status active
names an add-on available for the current planType of the record. -/
def AddOnInvariant (r : SubscriptionRecord) : Prop :=
  ∀ e ∈ r.activeAddOns, e.status = "active" →
    isAddOnAvailableForPlan e.name r.planType = true

instance (r : SubscriptionRecord) : Decidable (AddOnInvariant r) := by
  unfold AddOnInvariant
  infer_instance

/-! ### Helper lemmas about pruning -/

/-- After pruning for newPlanType, an entry that is still active is
available for newPlanType. -/
theorem pruneEntry_active_available (newPlanType : String) (e : AddOnEntry)
    (h : (pruneEntry newPlanType e).status = "active") :
    isAddOnAvailableForPlan (pruneEntry newPlanType e).name newPlanType = true := by
  by_cases hc : e.status = "active" ∧ ¬ isAddOnAvailableForPlan e.name newPlanType
  · simp only [pruneEntry, if_pos hc] at h
    simp at h
  · simp only [pruneEntry, if_neg hc] at h ⊢
    rcases not_and_or.mp hc with h1 | h1
    · exact absurd h h1
    · simpa using not_not.mp h1

/-- Pruning does not change a compatible entry. -/
theorem pruneEntry_compatible_eq (newPlanType : String) (e : AddOnEntry)
    (h : isAddOnAvailableForPlan e.name newPlanType = true) :
    pruneEntry newPlanType e = e := by
  unfold pruneEntry
  simp [h]

/-- An entry that is active after pruning was active before and is equal to
the original entry. -/
theorem pruneEntry_active_eq (newPlanType : String) (e : AddOnEntry)
    (h : (pruneEntry newPlanType e).status = "active") :
    pruneEntry newPlanType e = e ∧ e.status = "active" := by
  by_cases hc : e.status = "active" ∧ ¬ isAddOnAvailableForPlan e.name newPlanType
  · simp only [pruneEntry, if_pos hc] at h
    simp at h
  · simp only [pruneEntry, if_neg hc] at h ⊢
    exact ⟨by simp, h⟩

/-- Pruning establishes the add-on invariant for the target plan. -/
theorem prune_establishes_invariant (r : SubscriptionRecord)
    (newPlanType : String) :
    ∀ e ∈ (removeIncompatibleAddOns r newPlanType).2.activeAddOns,
      e.status = "active" → isAddOnAvailableForPlan e.name newPlanType = true := by
  intro e he hact
  unfold removeIncompatibleAddOns at he
  simp only [List.mem_map] at he
  obtain ⟨a, _, rfl⟩ := he
  exact pruneEntry_active_available newPlanType a hact

/-- Pruning preserves the add-on invariant with respect to the unchanged
planType of the record (the active set only shrinks). -/
theorem prune_preserves_invariant (r : SubscriptionRecord)
    (newPlanType : String) (hinv : AddOnInvariant r) :
    AddOnInvariant (removeIncompatibleAddOns r newPlanType).2 := by
  intro e he hact
  unfold removeIncompatibleAddOns at he
  simp only [List.mem_map] at he
  obtain ⟨a, ha, rfl⟩ := he
  obtain ⟨heq, hstat⟩ := pruneEntry_active_eq newPlanType a hact
  rw [heq]
  exact hinv a ha hstat

/-! ## Claim C2 -/

/-- C2: for every pair of distinct catalog plans, comparePlans classifies
the change as an upgrade exactly when the catalog price of the target is
strictly greater than the catalog price of the current plan. -/
theorem comparePlans_isUpgrade_iff (current target : String)
    (_hc : current ∈ planNames) (_ht : target ∈ planNames)
    (_hne : current ≠ target) :
    (comparePlans current target).isUpgrade = true ↔
      getPlanPrice target > getPlanPrice current := by
  unfold comparePlans
  simp [sub_pos]

/-- Witness for C2 at the concrete pair (FREE, PRO). -/
theorem comparePlans_isUpgrade_iff_witness :
    (comparePlans "FREE" "PRO").isUpgrade = true ↔
      getPlanPrice "PRO" > getPlanPrice "FREE" :=
  comparePlans_isUpgrade_iff "FREE" "PRO" (by decide) (by decide) (by decide)

/-! ## Claim C3 -/

/-- C3: after removeIncompatibleAddOns(record, newPlan), every entry that
still has status active names an add-on available for newPlan, the entry
list is the pointwise image of the pruning step, and that step leaves every
entry compatible with newPlan unchanged. -/
theorem removeIncompatibleAddOns_spec (r : SubscriptionRecord)
    (newPlanType : String) :
    (∀ e ∈ (removeIncompatibleAddOns r newPlanType).2.activeAddOns,
        e.status = "active" →
        isAddOnAvailableForPlan e.name newPlanType = true) ∧
    (removeIncompatibleAddOns r newPlanType).2.activeAddOns
        = r.activeAddOns.map (pruneEntry newPlanType) ∧
    (∀ e ∈ r.activeAddOns,
        isAddOnAvailableForPlan e.name newPlanType = true →
        pruneEntry newPlanType e = e) := by
  refine ⟨prune_establishes_invariant r newPlanType, rfl, ?_⟩
  intro e _ h
  exact pruneEntry_compatible_eq newPlanType e h

/-- A concrete record used by several witnesses: a PRO subscriber holding
an active decoratives add-on and an active promotedBeat add-on. -/
def demoRecord : SubscriptionRecord :=
  { userId := "u1"
    username := "alice"
    email := "alice@example.com"
    stripeCustomerId := some "cus_1"
    stripeSubscriptionId := some "sub_1"
    stripePriceId := some "price_pro"
    status := "active"
    planType := "PRO"
    activeAddOns :=
      [{ name := "decoratives", stripeSubscriptionItemId := some "si_1",
         purchasedAt := 0, status := "active" },
       { name := "promotedBeat", stripeSubscriptionItemId := some "si_2",
         purchasedAt := 0, status := "active" }]
    currentPeriodStart := some 100
    currentPeriodEnd := some 200
    cancelAtPeriodEnd := false
    canceledAt := none
    metadata := RecordMetadata.empty }

/-- Witness for C3: instantiated on the demo record pruned for STUDIO, the
first conjunct yields availability of the surviving promotedBeat entry. -/
theorem removeIncompatibleAddOns_spec_witness :
    isAddOnAvailableForPlan "promotedBeat" "STUDIO" = true :=
  (removeIncompatibleAddOns_spec demoRecord "STUDIO").1
    { name := "promotedBeat", stripeSubscriptionItemId := some "si_2",
      purchasedAt := 0, status := "active" }
    (by decide) (by decide)

/-! ## Stripe-side objects and webhook payloads -/

/-- A Stripe subscription object as the code reads it: items.data[0] may be
absent and is modelled as an optional pair of subscription item id and
price id. -/
structure StripeSub where
  id : String
  customer : String
  status : String
  items0 : Option (String × String)
  currentPeriodStart : Int
  currentPeriodEnd : Int
  cancelAtPeriodEnd : Bool
deriving DecidableEq, Repr

/-- items.data[0]?.price.id. -/
def StripeSub.priceId (s : StripeSub) : Option String :=
  s.items0.map Prod.snd

/-- Payload of a subscription_schedule.completed / .released event. -/
structure SchedulePayload where
  subscription : Option String
  customer : Option String
deriving DecidableEq, Repr

/-- Payload of an invoice event. -/
structure InvoicePayload where
  subscription : Option String
deriving DecidableEq, Repr

/-- Payload of checkout.session.completed: the subscription field can be an
id string or an expanded object, and metadata may be missing. -/
structure CheckoutSession where
  customer : String
  subscription : Option (String ⊕ StripeSub)
  metadataUserId : Option String
  metadataUsername : Option String
deriving DecidableEq, Repr

/-- Entitlement (SPACE) service invocations recorded by the embedding; only
the attempt is recorded, success or failure never changes the record. -/
inductive SpaceCall where
  | createContract (userId plan : String)
  | updateContract (userId plan : String)
  | cancelContract (userId : String)
  | deleteContract (userId : String)
deriving DecidableEq, Repr

/-- Oracle environment for one webhook delivery: results of the Stripe
calls a handler may make, and the wall clock. -/
structure WebhookEnv where
  retrieveSub : Except JsError StripeSub
  createFreeSub : Except JsError StripeSub
  now : Int
deriving Repr

/-- Outcome of one webhook handler: the stored records after the handler
(saves always succeed), the exception it rethrew if any, and the
entitlement calls it attempted. -/
structure HandlerOutcome where
  db : List SubscriptionRecord
  thrown : Option JsError
  spaceCalls : List SpaceCall
deriving Repr

/-- Update the first element satisfying the test, as findOne followed by an
in-place save does. -/
def updateFirst (test : SubscriptionRecord → Bool)
    (f : SubscriptionRecord → SubscriptionRecord) :
    List SubscriptionRecord → List SubscriptionRecord
  | [] => []
  | r :: rs => if test r then f r :: rs else r :: updateFirst test f rs

/-! ## handleSubscriptionUpdated (subscriptionController.js lines 1309-1358) -/

/-- The findOne filter of handleSubscriptionUpdated: subscription id or
customer id. -/
def subUpdatedMatches (p : StripeSub) (r : SubscriptionRecord) : Bool :=
  r.stripeSubscriptionId = some p.id ∨ r.stripeCustomerId = some p.customer

/-- Field assignments of handleSubscriptionUpdated on the located record. -/
def applySubUpdate (penv : PriceEnv) (p : StripeSub)
    (r : SubscriptionRecord) : SubscriptionRecord :=
  { r with
    stripeSubscriptionId := some p.id
    stripePriceId := p.priceId
    status := p.status
    planType := getPlanTypeFromPriceId penv p.priceId
    currentPeriodStart := some p.currentPeriodStart
    currentPeriodEnd := some p.currentPeriodEnd
    cancelAtPeriodEnd := p.cancelAtPeriodEnd }

/-- Effect of handleSubscriptionUpdated on the stored records: locate by
subscription id or customer id and overwrite the billing fields and the
derived planType. The entitlement update (attempted when the event status
is active) and its caught failure never touch the records. -/
def handleSubscriptionUpdated (penv : PriceEnv) (p : StripeSub)
    (db : List SubscriptionRecord) : List SubscriptionRecord :=
  updateFirst (subUpdatedMatches p) (applySubUpdate penv p) db

/-- handleSubscriptionUpdated as a handler outcome (it rethrows nothing in
the model because saves succeed and entitlement failures are caught). -/
def handleSubscriptionUpdatedO (penv : PriceEnv) (p : StripeSub)
    (db : List SubscriptionRecord) : HandlerOutcome :=
  { db := handleSubscriptionUpdated penv p db
    thrown := none
    spaceCalls :=
      match db.find? (subUpdatedMatches p) with
      | some r =>
          if p.status = "active" then
            [.updateContract r.userId (getPlanTypeFromPriceId penv p.priceId)]
          else []
      | none => [] }

/-! ## handleScheduleCompleted (subscriptionController.js lines 1502-1572) -/

/-- The findOne filter of handleScheduleCompleted. -/
def scheduleMatches (sid : String) (customer : Option String)
    (r : SubscriptionRecord) : Bool :=
  r.stripeSubscriptionId = some sid ∨
    (customer.isSome ∧ r.stripeCustomerId = customer)

/-- Field assignments of handleScheduleCompleted after pruning: final plan
derived from the re-fetched subscription price, schedule metadata cleared. -/
def scheduleUpdate (penv : PriceEnv) (sub : StripeSub)
    (r : SubscriptionRecord) : SubscriptionRecord :=
  let r1 := (removeIncompatibleAddOns r
    (getPlanTypeFromPriceId penv sub.priceId)).2
  { r1 with
    planType := getPlanTypeFromPriceId penv sub.priceId
    stripePriceId := sub.priceId
    status := sub.status
    currentPeriodStart := some sub.currentPeriodStart
    currentPeriodEnd := some sub.currentPeriodEnd
    metadata := RecordMetadata.empty }

/-- handleScheduleCompleted: no-op without a subscription id; rethrows when
the re-fetch of the subscription fails (before any mutation); otherwise
prunes add-ons for the now-current plan, persists the final plan, clears
the pending-change metadata, and attempts the entitlement update. -/
def handleScheduleCompleted (penv : PriceEnv) (env : WebhookEnv)
    (p : SchedulePayload) (db : List SubscriptionRecord) : HandlerOutcome :=
  match p.subscription with
  | none => { db := db, thrown := none, spaceCalls := [] }
  | some sid =>
    match env.retrieveSub with
    | .error e => { db := db, thrown := some e, spaceCalls := [] }
    | .ok sub =>
      match db.find? (scheduleMatches sid p.customer) with
      | none => { db := db, thrown := none, spaceCalls := [] }
      | some r =>
        { db := updateFirst (scheduleMatches sid p.customer)
            (scheduleUpdate penv sub) db
          thrown := none
          spaceCalls := [.updateContract r.userId
            (getPlanTypeFromPriceId penv sub.priceId)] }

/-! ## handleSubscriptionDeleted (subscriptionController.js lines 1363-1433) -/

/-- Provisioning of the replacement free subscription: price lookup for the
free plan followed by the Stripe creation call; either step can fail. -/
def provisionFree (penv : PriceEnv) (env : WebhookEnv) :
    Except JsError (String × StripeSub) :=
  match getPriceIdForPlan penv FREE_PLAN with
  | .error e => .error e
  | .ok freePriceId =>
    match env.createFreeSub with
    | .error e => .error e
    | .ok fs => .ok (freePriceId, fs)

/-- Record state after a successful replacement provisioning. -/
def deletedSuccessUpdate (freePriceId : String) (fs : StripeSub) (now : Int)
    (r : SubscriptionRecord) : SubscriptionRecord :=
  { r with
    stripeSubscriptionId := some fs.id
    stripePriceId := some freePriceId
    planType := FREE_PLAN
    status := "active"
    currentPeriodStart := some fs.currentPeriodStart
    currentPeriodEnd := some fs.currentPeriodEnd
    cancelAtPeriodEnd := false
    canceledAt := some now }

/-- Record state after a failed replacement provisioning. -/
def deletedFailureUpdate (now : Int) (r : SubscriptionRecord) :
    SubscriptionRecord :=
  { r with status := "canceled", canceledAt := some now }

/-- handleSubscriptionDeleted: locate by subscription id; try to provision
a replacement free subscription and repoint the record at it with
status active, marking status canceled when provisioning fails; in both
cases attempt the entitlement downgrade to free afterwards. -/
def handleSubscriptionDeleted (penv : PriceEnv) (env : WebhookEnv)
    (p : StripeSub) (db : List SubscriptionRecord) : HandlerOutcome :=
  match db.find? (fun r => r.stripeSubscriptionId = some p.id) with
  | none => { db := db, thrown := none, spaceCalls := [] }
  | some r =>
    let f := match provisionFree penv env with
      | .ok (freePriceId, fs) => deletedSuccessUpdate freePriceId fs env.now
      | .error _ => deletedFailureUpdate env.now
    { db := updateFirst (fun r => r.stripeSubscriptionId = some p.id) f db
      thrown := none
      spaceCalls := [.cancelContract r.userId] }

/-! ## invoice handlers (subscriptionController.js lines 1438-1496) -/

/-- handlePaymentSucceeded: self-heal a located non-active record to
active. -/
def handlePaymentSucceeded (p : InvoicePayload)
    (db : List SubscriptionRecord) : HandlerOutcome :=
  match p.subscription with
  | none => { db := db, thrown := none, spaceCalls := [] }
  | some sid =>
    { db := updateFirst (fun r => r.stripeSubscriptionId = some sid)
        (fun r => if r.status ≠ "active" then { r with status := "active" }
                  else r) db
      thrown := none
      spaceCalls := [] }

/-- handlePaymentFailed: mark a located record past_due. -/
def handlePaymentFailed (p : InvoicePayload)
    (db : List SubscriptionRecord) : HandlerOutcome :=
  match p.subscription with
  | none => { db := db, thrown := none, spaceCalls := [] }
  | some sid =>
    { db := updateFirst (fun r => r.stripeSubscriptionId = some sid)
        (fun r => { r with status := "past_due" }) db
      thrown := none
      spaceCalls := [] }

/-! ## handleCheckoutCompleted (subscriptionController.js lines 1224-1304) -/

/-- The subscription id string carried by the session. -/
def checkoutSubId (s : CheckoutSession) : Option String :=
  match s.subscription with
  | some (Sum.inl sid) => some sid
  | some (Sum.inr obj) => some obj.id
  | none => none

/-- Upsert data of handleCheckoutCompleted applied to an existing record;
the period fields are only written when present and truthy. -/
def checkoutUpdate (penv : PriceEnv) (s : CheckoutSession) (sub : StripeSub)
    (r : SubscriptionRecord) : SubscriptionRecord :=
  let base := { r with
    stripeCustomerId := some s.customer
    stripeSubscriptionId := checkoutSubId s
    stripePriceId := sub.priceId
    status := sub.status
    planType := getPlanTypeFromPriceId penv sub.priceId
    cancelAtPeriodEnd := false }
  let base := if sub.currentPeriodStart ≠ 0 then
      { base with currentPeriodStart := some sub.currentPeriodStart }
    else base
  if sub.currentPeriodEnd ≠ 0 then
    { base with currentPeriodEnd := some sub.currentPeriodEnd }
  else base

/-- The record created by the upsert when no record matches the user id
(mongoose creates it from the filter and the update, without validators,
so the identity fields stay empty). -/
def checkoutFreshRecord (userId : String) : SubscriptionRecord :=
  { userId := userId
    username := ""
    email := ""
    stripeCustomerId := none
    stripeSubscriptionId := none
    stripePriceId := none
    status := "incomplete"
    planType := "FREE"
    activeAddOns := []
    currentPeriodStart := none
    currentPeriodEnd := none
    cancelAtPeriodEnd := false
    canceledAt := none
    metadata := RecordMetadata.empty }

/-- handleCheckoutCompleted: ignore sessions without a user id; use the
expanded subscription when present, otherwise fetch it (rethrowing on
failure); upsert the record by user id and attempt the entitlement
contract creation. -/
def handleCheckoutCompleted (penv : PriceEnv) (env : WebhookEnv)
    (s : CheckoutSession) (db : List SubscriptionRecord) : HandlerOutcome :=
  match s.metadataUserId with
  | none => { db := db, thrown := none, spaceCalls := [] }
  | some userId =>
    let subRes : Except JsError StripeSub :=
      match s.subscription with
      | some (Sum.inr obj) => .ok obj
      | _ => env.retrieveSub
    match subRes with
    | .error e => { db := db, thrown := some e, spaceCalls := [] }
    | .ok sub =>
      let db2 :=
        if (db.find? (fun r => r.userId = userId)).isSome then
          updateFirst (fun r => r.userId = userId)
            (checkoutUpdate penv s sub) db
        else db ++ [checkoutUpdate penv s sub (checkoutFreshRecord userId)]
      { db := db2
        thrown := none
        spaceCalls := [.createContract userId
          (getPlanTypeFromPriceId penv sub.priceId)] }

/-! ## Claim C8 -/

/-- The located record still matches the same filter after the update,
because its subscription id has been set to the id of the event. -/
theorem subUpdatedMatches_applySubUpdate (penv : PriceEnv) (p : StripeSub)
    (r : SubscriptionRecord) :
    subUpdatedMatches p (applySubUpdate penv p r) = true := by
  simp [subUpdatedMatches, applySubUpdate]

/-- The field assignments of handleSubscriptionUpdated are idempotent. -/
theorem applySubUpdate_idem (penv : PriceEnv) (p : StripeSub)
    (r : SubscriptionRecord) :
    applySubUpdate penv p (applySubUpdate penv p r) = applySubUpdate penv p r := by
  simp [applySubUpdate]

/-- C8: applying handleSubscriptionUpdated twice with the same payload
yields the same stored state as applying it once; re-applying the event to
already-converged state is a no-op on the records. -/
theorem handleSubscriptionUpdated_idempotent (penv : PriceEnv)
    (p : StripeSub) (db : List SubscriptionRecord) :
    handleSubscriptionUpdated penv p (handleSubscriptionUpdated penv p db)
      = handleSubscriptionUpdated penv p db := by
  unfold handleSubscriptionUpdated
  induction db with
  | nil => rfl
  | cons r rs ih =>
    by_cases h : subUpdatedMatches p r = true
    · simp only [updateFirst, if_pos h, subUpdatedMatches_applySubUpdate,
        if_true, applySubUpdate_idem]
    · simp only [updateFirst, h, if_false, Bool.false_eq_true, ih]

/-! ## Claim C10 -/

/-- C10: a price reference mapped to no catalog plan is reverse-looked-up
as the literal BASIC, which is not a plan of the catalog, and the webhook
updates that derive planType from an event price (subscription-updated,
schedule-completed, checkout-completed) therefore write planType BASIC
into the record instead of rejecting the event. -/
theorem unknownPrice_maps_to_BASIC (penv : PriceEnv) (pid : Option String)
    (h : getPlanNameFromPriceId penv pid = none) :
    getPlanTypeFromPriceId penv pid = "BASIC" ∧
    isValidPlan "BASIC" = false ∧
    (∀ p : StripeSub, ∀ r : SubscriptionRecord, p.priceId = pid →
      (applySubUpdate penv p r).planType = "BASIC") ∧
    (∀ sub : StripeSub, ∀ r : SubscriptionRecord, sub.priceId = pid →
      (scheduleUpdate penv sub r).planType = "BASIC") ∧
    (∀ s : CheckoutSession, ∀ sub : StripeSub, ∀ r : SubscriptionRecord,
      sub.priceId = pid →
      (checkoutUpdate penv s sub r).planType = "BASIC") := by
  have hb : getPlanTypeFromPriceId penv pid = "BASIC" := by
    unfold getPlanTypeFromPriceId
    rw [h]
    rfl
  refine ⟨hb, by decide, ?_, ?_, ?_⟩
  · intro p r hp
    simp [applySubUpdate, hp, hb]
  · intro sub r hp
    simp [scheduleUpdate, hp, hb]
  · intro s sub r hp
    unfold checkoutUpdate
    split <;> split <;> simp [hp, hb]

/-- A concrete price environment with fully configured distinct price
references, used by several witnesses and counterexamples. -/
def demoPriceEnv : PriceEnv :=
  { free := some "price_free"
    pro := some "price_pro"
    studio := some "price_studio"
    addonDecoratives := some "price_deco"
    addonPromotedBeat := some "price_promo"
    addonExtraDashboard := some "price_dash" }

/-- Witness for C10: the concrete unmapped price reference price_unknown is
derived as BASIC, which is not a catalog plan. -/
theorem unknownPrice_maps_to_BASIC_witness :
    getPlanTypeFromPriceId demoPriceEnv (some "price_unknown") = "BASIC" ∧
      isValidPlan "BASIC" = false :=
  ⟨(unknownPrice_maps_to_BASIC demoPriceEnv (some "price_unknown")
      (by decide)).1,
   (unknownPrice_maps_to_BASIC demoPriceEnv (some "price_unknown")
      (by decide)).2.1⟩

/-! ## Claim C5 -/

/-- C5: on a subscription-deleted event located on a record, the handler
attempts the entitlement downgrade-to-free in every case; when replacement
provisioning fails the located record is marked canceled (not active), and
when it succeeds the record is repointed at the new subscription with the
free plan and status active. -/
theorem handleSubscriptionDeleted_spec (penv : PriceEnv) (env : WebhookEnv)
    (p : StripeSub) (db : List SubscriptionRecord) (r : SubscriptionRecord)
    (hfind : db.find? (fun x => x.stripeSubscriptionId = some p.id) = some r) :
    (handleSubscriptionDeleted penv env p db).spaceCalls
        = [SpaceCall.cancelContract r.userId] ∧
    (∀ e, provisionFree penv env = .error e →
      (handleSubscriptionDeleted penv env p db).db
          = updateFirst (fun x => x.stripeSubscriptionId = some p.id)
              (deletedFailureUpdate env.now) db ∧
      (deletedFailureUpdate env.now r).status = "canceled" ∧
      (deletedFailureUpdate env.now r).status ≠ "active") ∧
    (∀ freePriceId fs, provisionFree penv env = .ok (freePriceId, fs) →
      (handleSubscriptionDeleted penv env p db).db
          = updateFirst (fun x => x.stripeSubscriptionId = some p.id)
              (deletedSuccessUpdate freePriceId fs env.now) db ∧
      (deletedSuccessUpdate freePriceId fs env.now r).stripeSubscriptionId
          = some fs.id ∧
      (deletedSuccessUpdate freePriceId fs env.now r).planType = FREE_PLAN ∧
      (deletedSuccessUpdate freePriceId fs env.now r).status = "active") := by
  refine ⟨?_, ?_, ?_⟩
  · unfold handleSubscriptionDeleted
    rw [hfind]
  · intro e he
    unfold handleSubscriptionDeleted
    rw [hfind]
    refine ⟨?_, rfl, by simp [deletedFailureUpdate]⟩
    simp only [he]
  · intro freePriceId fs hok
    unfold handleSubscriptionDeleted
    rw [hfind]
    refine ⟨?_, rfl, rfl, rfl⟩
    simp only [hok]

/-- Concrete environment whose free-subscription provisioning fails. -/
def failingWebhookEnv : WebhookEnv :=
  { retrieveSub := .error { msg := "Failed to retrieve subscription" }
    createFreeSub := .error { msg := "Failed to create free subscription" }
    now := 777 }

/-- Witness for C5 at a concrete failing provisioning: the record is marked
canceled and the entitlement downgrade is still attempted. -/
theorem handleSubscriptionDeleted_spec_witness :
    (handleSubscriptionDeleted demoPriceEnv failingWebhookEnv
        { id := "sub_1", customer := "cus_1", status := "canceled",
          items0 := none, currentPeriodStart := 0, currentPeriodEnd := 0,
          cancelAtPeriodEnd := false }
        [demoRecord]).spaceCalls = [SpaceCall.cancelContract "u1"] ∧
    (deletedFailureUpdate failingWebhookEnv.now demoRecord).status
        = "canceled" :=
  ⟨(handleSubscriptionDeleted_spec demoPriceEnv failingWebhookEnv
      { id := "sub_1", customer := "cus_1", status := "canceled",
        items0 := none, currentPeriodStart := 0, currentPeriodEnd := 0,
        cancelAtPeriodEnd := false }
      [demoRecord] demoRecord (by decide)).1,
   ((handleSubscriptionDeleted_spec demoPriceEnv failingWebhookEnv
      { id := "sub_1", customer := "cus_1", status := "canceled",
        items0 := none, currentPeriodStart := 0, currentPeriodEnd := 0,
        cancelAtPeriodEnd := false }
      [demoRecord] demoRecord (by decide)).2.1
      { msg := "Failed to create free subscription" } rfl).2.1⟩

/-! ## The plan-change orchestrator

updateSubscriptionPlan (subscriptionController.js lines 398-861) together
with the Stripe-side updateSubscriptionPlan (stripeService.js lines
441-554). The environment freezes the results of the external calls a
single request can make. -/

/-- The Stripe customer as read by the upgrade payment check; the three
possible default fields are collapsed into one flag. -/
structure CustomerInfo where
  hasDefaultPaymentMethod : Bool
deriving DecidableEq, Repr

/-- A Stripe checkout session in setup mode. -/
structure SetupSession where
  id : String
  url : String
deriving DecidableEq, Repr

/-- One schedule returned by subscriptionSchedules.list: its id, the
subscription it belongs to, and its status. -/
structure ScheduleInfo where
  id : String
  subscription : String
  status : String
deriving DecidableEq, Repr

/-- Oracle environment of one plan-change request. -/
structure PlanChangeEnv where
  retrieveCustomer : Except JsError CustomerInfo
  listPaymentMethods : Except JsError (List String)
  createSetupSession : Except JsError SetupSession
  releaseSchedule : Except JsError Unit
  retrieveSub : Except JsError StripeSub
  createSub : Except JsError StripeSub
  listSchedules : Except JsError (List ScheduleInfo)
  releaseScheduleSvc : Except JsError Unit
  createSchedule : Except JsError String
  updateSchedule : Except JsError Unit
  updateSub : Except JsError StripeSub
  createSetupSessionOnError : Except JsError SetupSession
deriving Repr

/-- The request body of the plan-change endpoint (prorationBehavior
defaults to create_prorations in the destructuring). -/
structure PlanChangeReq where
  planType : String
  prorationBehavior : String
deriving DecidableEq, Repr

/-- The scheduled_change information attached to the service result of a
deferred downgrade. -/
structure ScheduledChange where
  newPriceId : String
  effectiveDate : Int
  scheduleId : String
deriving DecidableEq, Repr

/-- Result of the Stripe-side updateSubscriptionPlan. -/
structure SvcUpdateResult where
  sub : StripeSub
  scheduledChange : Option ScheduledChange
deriving DecidableEq, Repr

/-- The downgrade path of the service releases every active schedule of
the subscription before creating the new one; any release failure
propagates. -/
def releaseActiveSchedules (env : PlanChangeEnv) (subscriptionId : String) :
    List ScheduleInfo → Except JsError Unit
  | [] => .ok ()
  | s :: rest =>
    if s.subscription = subscriptionId ∧ s.status = "active" then
      match env.releaseScheduleSvc with
      | .error e => .error e
      | .ok _ => releaseActiveSchedules env subscriptionId rest
    else releaseActiveSchedules env subscriptionId rest

/-- stripeService.updateSubscriptionPlan: retrieve the subscription, do
nothing when the price already matches, schedule a two-phase deferred
change for downgrades, update in place with the requested proration for
upgrades; every error is rethrown with a wrapping message that keeps the
original text. -/
def svcUpdateSubscriptionPlan (env : PlanChangeEnv)
    (subscriptionId newPriceId : String) (isDowngrade : Bool) :
    Except JsError SvcUpdateResult :=
  let wrap : JsError → JsError := fun e =>
    { msg := "Failed to update subscription plan: " ++ e.msg }
  match env.retrieveSub with
  | .error e => .error (wrap e)
  | .ok cur =>
    match cur.items0 with
    | none => .error (wrap { msg := "Invalid subscription or subscription items" })
    | some item =>
      if item.2 = newPriceId then
        .ok { sub := cur, scheduledChange := none }
      else if isDowngrade then
        match env.listSchedules with
        | .error e => .error (wrap e)
        | .ok schedules =>
          match releaseActiveSchedules env subscriptionId schedules with
          | .error e => .error (wrap e)
          | .ok _ =>
            match env.createSchedule with
            | .error e => .error (wrap e)
            | .ok scheduleId =>
              match env.updateSchedule with
              | .error e => .error (wrap e)
              | .ok _ =>
                let sc : ScheduledChange :=
                  { newPriceId := newPriceId,
                    effectiveDate := cur.currentPeriodEnd,
                    scheduleId := scheduleId }
                .ok { sub := cur, scheduledChange := some sc }
      else
        match env.updateSub with
        | .error e => .error (wrap e)
        | .ok updated => .ok { sub := updated, scheduledChange := none }

/-- Response of the plan-change endpoint, reduced to the parts the claims
inspect. -/
structure PlanChangeResponse where
  status : Nat
  errorCode : Option String
  changeType : Option String
  setupUrl : Option String
  setupSessionId : Option String
deriving DecidableEq, Repr

/-- An error-free response with only a status and a change type. -/
def okResponse (changeType : String) : PlanChangeResponse :=
  { status := 200, errorCode := none, changeType := some changeType,
    setupUrl := none, setupSessionId := none }

/-- An error response carrying no setup handle. -/
def errResponse (status : Nat) (code : String) : PlanChangeResponse :=
  { status := status, errorCode := some code, changeType := none,
    setupUrl := none, setupSessionId := none }

/-- The 402 suspension response carrying the setup handle. -/
def paymentMethodRequiredResponse (s : SetupSession) : PlanChangeResponse :=
  { status := 402, errorCode := some "PAYMENT_METHOD_REQUIRED",
    changeType := none, setupUrl := some s.url, setupSessionId := some s.id }

/-- Control flow of the request body: a response together with the stored
record, or a throw together with the record as stored at the throw. -/
inductive CtrlFlow where
  | done (resp : PlanChangeResponse) (db : SubscriptionRecord)
  | thrown (e : JsError) (db : SubscriptionRecord)
deriving Repr

/-- The stored record carried by either control-flow outcome. -/
def CtrlFlow.stored : CtrlFlow → SubscriptionRecord
  | .done _ db => db
  | .thrown _ db => db

/-- Releasing a pending downgrade schedule before proceeding: when the
metadata holds a schedule id and the release succeeds, the pending-change
metadata is cleared and saved; a release failure is logged and the request
continues with the metadata intact. -/
def clearPendingSchedule (env : PlanChangeEnv) (r : SubscriptionRecord) :
    SubscriptionRecord :=
  match r.metadata.scheduleId with
  | none => r
  | some _ =>
    match env.releaseSchedule with
    | .ok _ => { r with metadata := RecordMetadata.empty }
    | .error _ => r

/-- Outcome of the upgrade payment-method verification. -/
inductive PaymentCheckOutcome where
  | proceed
  | respond (resp : PlanChangeResponse)
  | thrown (e : JsError)
deriving Repr

/-- The payment-method verification of the upgrade path: skipped for
downgrades and free targets; with a default method it proceeds; with
attached methods but no default the first one is promoted (a promotion
failure is ignored) and it proceeds; with no method at all it answers 402
with a setup handle (500 when the setup session cannot be created). -/
def paymentCheck (env : PlanChangeEnv) (isUpgrade : Bool) (newPrice : Int) :
    PaymentCheckOutcome :=
  if isUpgrade ∧ newPrice > 0 then
    match env.retrieveCustomer with
    | .error e => .thrown e
    | .ok cust =>
      if cust.hasDefaultPaymentMethod then .proceed
      else
        match env.listPaymentMethods with
        | .error e => .thrown e
        | .ok pms =>
          if pms ≠ [] then .proceed
          else
            match env.createSetupSession with
            | .ok s => .respond (paymentMethodRequiredResponse s)
            | .error _ => .respond (errResponse 500 "SETUP_SESSION_ERROR")
  else .proceed

/-- Record state stored by the canceled-subscription branch after the new
subscription has been created. -/
def newSubscriptionUpdate (req : PlanChangeReq) (newPriceId : String)
    (ns : StripeSub) (r : SubscriptionRecord) : SubscriptionRecord :=
  { r with
    stripeSubscriptionId := some ns.id
    stripePriceId := some newPriceId
    planType := req.planType
    status := ns.status
    currentPeriodStart := some ns.currentPeriodStart
    currentPeriodEnd := some ns.currentPeriodEnd
    metadata := RecordMetadata.empty }

/-- Record state stored by the scheduled-downgrade path: only the
pending-change metadata is written. -/
def downgradeScheduledUpdate (req : PlanChangeReq) (sc : ScheduledChange)
    (r : SubscriptionRecord) : SubscriptionRecord :=
  { r with metadata :=
    { pendingPlanChange := some req.planType
      pendingChangeDate := some sc.effectiveDate
      scheduleId := some sc.scheduleId } }

/-- Record state stored by the immediate path after pruning. -/
def immediateUpdate (req : PlanChangeReq) (newPriceId : String)
    (sub : StripeSub) (r : SubscriptionRecord) : SubscriptionRecord :=
  { r with
    planType := req.planType
    stripePriceId := some newPriceId
    status := sub.status
    currentPeriodStart := some sub.currentPeriodStart
    currentPeriodEnd := some sub.currentPeriodEnd }

/-- The stored state after the conditional save inside
removeIncompatibleAddOns: the pruned record when something was removed,
otherwise the previous stored state. -/
def pruneSaveState (r : SubscriptionRecord) (plan : String) :
    SubscriptionRecord :=
  if (removeIncompatibleAddOns r plan).1.removedAddOns ≠ [] then
    (removeIncompatibleAddOns r plan).2
  else r

/-- The shared tail of the non-canceled flow: call the Stripe-side update;
on a downgrade that came back with a scheduled change, persist only the
pending-change metadata; otherwise prune incompatible add-ons (saving when
something was removed) and persist the new plan immediately. -/
def serviceFlow (env : PlanChangeEnv) (req : PlanChangeReq)
    (subId newPriceId : String) (isUpgrade : Bool)
    (mem db : SubscriptionRecord) : CtrlFlow :=
  match svcUpdateSubscriptionPlan env subId newPriceId (!isUpgrade) with
  | .error e => .thrown e db
  | .ok svc =>
    match svc.scheduledChange with
    | some sc =>
      if ¬ isUpgrade then
        CtrlFlow.done (okResponse "downgrade")
          (downgradeScheduledUpdate req sc mem)
      else
        CtrlFlow.done (okResponse "upgrade")
          (immediateUpdate req newPriceId svc.sub
            (removeIncompatibleAddOns mem req.planType).2)
    | none =>
      CtrlFlow.done
        (okResponse (if isUpgrade then "upgrade" else "downgrade"))
        (immediateUpdate req newPriceId svc.sub
          (removeIncompatibleAddOns mem req.planType).2)

/-- The try block of updateSubscriptionPlan for a located record:
validations, same-plan and missing-subscription rejections, release of a
pending schedule, the upgrade payment check, the canceled-subscription
recreation branch, and the shared service flow. -/
def updateSubscriptionPlanBody (penv : PriceEnv) (env : PlanChangeEnv)
    (req : PlanChangeReq) (r0 : SubscriptionRecord) : CtrlFlow :=
  if ¬ isValidPlan req.planType then
    .done (errResponse 400 "INVALID_PLAN_TYPE") r0
  else if ¬ ["create_prorations", "none", "always_invoice"].contains
      req.prorationBehavior then
    .done (errResponse 400 "INVALID_PRORATION_BEHAVIOR") r0
  else
    match r0.stripeSubscriptionId with
    | none => .done (errResponse 400 "NO_STRIPE_SUBSCRIPTION") r0
    | some subId =>
      if r0.planType = req.planType then
        .done (errResponse 400 "SAME_PLAN") r0
      else
        match getPriceIdForPlan penv req.planType with
        | .error e => .thrown e r0
        | .ok newPriceId =>
          match paymentCheck env
              (comparePlans r0.planType req.planType).isUpgrade
              (comparePlans r0.planType req.planType).newPrice with
          | .thrown e => .thrown e (clearPendingSchedule env r0)
          | .respond resp => .done resp (clearPendingSchedule env r0)
          | .proceed =>
            match env.retrieveSub with
            | .ok ss =>
              if ss.status = "canceled" then
                match env.createSub with
                | .error e => .thrown e
                    (pruneSaveState (clearPendingSchedule env r0) req.planType)
                | .ok ns =>
                  .done (okResponse "new_subscription")
                    (newSubscriptionUpdate req newPriceId ns
                      (removeIncompatibleAddOns (clearPendingSchedule env r0)
                        req.planType).2)
              else
                serviceFlow env req subId newPriceId
                  (comparePlans r0.planType req.planType).isUpgrade
                  (clearPendingSchedule env r0) (clearPendingSchedule env r0)
            | .error _ =>
              serviceFlow env req subId newPriceId
                (comparePlans r0.planType req.planType).isUpgrade
                (clearPendingSchedule env r0) (clearPendingSchedule env r0)

/-- updateSubscriptionPlan: run the body and apply the catch handler,
which turns a thrown error whose message mentions a missing payment source
into a 402 with a freshly created setup session (when the stored record
still has a customer) and every other throw into a 500; the stored state
is whatever had been saved when the error was thrown. -/
def updateSubscriptionPlanCtrl (penv : PriceEnv) (env : PlanChangeEnv)
    (req : PlanChangeReq) (r0opt : Option SubscriptionRecord) :
    PlanChangeResponse × Option SubscriptionRecord :=
  match r0opt with
  | none =>
    if ¬ isValidPlan req.planType then
      (errResponse 400 "INVALID_PLAN_TYPE", none)
    else if ¬ ["create_prorations", "none", "always_invoice"].contains
        req.prorationBehavior then
      (errResponse 400 "INVALID_PRORATION_BEHAVIOR", none)
    else (errResponse 404 "SUBSCRIPTION_NOT_FOUND", none)
  | some r0 =>
    match updateSubscriptionPlanBody penv env req r0 with
    | .done resp db => (resp, some db)
    | .thrown e db =>
      if jsIncludes e.msg "no attached payment source" then
        match db.stripeCustomerId with
        | some _ =>
          match env.createSetupSessionOnError with
          | .ok s => (paymentMethodRequiredResponse s, some db)
          | .error _ =>
            (errResponse 500 "SUBSCRIPTION_UPDATE_ERROR", some db)
        | none => (errResponse 500 "SUBSCRIPTION_UPDATE_ERROR", some db)
      else (errResponse 500 "SUBSCRIPTION_UPDATE_ERROR", some db)

/-! ## Claim C1 -/

/-- A STUDIO subscriber without add-ons or pending changes. -/
def studioRecord : SubscriptionRecord :=
  { userId := "u2"
    username := "bob"
    email := "bob@example.com"
    stripeCustomerId := some "cus_1"
    stripeSubscriptionId := some "sub_1"
    stripePriceId := some "price_studio"
    status := "active"
    planType := "STUDIO"
    activeAddOns := []
    currentPeriodStart := some 100
    currentPeriodEnd := some 200
    cancelAtPeriodEnd := false
    canceledAt := none
    metadata := RecordMetadata.empty }

/-- The Stripe-side subscription sub_1 on the STUDIO price, retrieved as
canceled. -/
def canceledStudioSub : StripeSub :=
  { id := "sub_1"
    customer := "cus_1"
    status := "canceled"
    items0 := some ("si_1", "price_studio")
    currentPeriodStart := 100
    currentPeriodEnd := 200
    cancelAtPeriodEnd := false }

/-- The Stripe-side subscription sub_1 on the STUDIO price, active. -/
def activeStudioSub : StripeSub :=
  { canceledStudioSub with status := "active" }

/-- The replacement subscription sub_2 created on the PRO price. -/
def freshProSub : StripeSub :=
  { id := "sub_2"
    customer := "cus_1"
    status := "active"
    items0 := some ("si_2", "price_pro")
    currentPeriodStart := 300
    currentPeriodEnd := 400
    cancelAtPeriodEnd := false }

/-- An environment in which the Stripe subscription is retrieved as
canceled and the recreation succeeds. -/
def canceledSubEnv : PlanChangeEnv :=
  { retrieveCustomer := .ok { hasDefaultPaymentMethod := true }
    listPaymentMethods := .ok []
    createSetupSession := .ok { id := "cs_1", url := "https://setup.example" }
    releaseSchedule := .ok ()
    retrieveSub := .ok canceledStudioSub
    createSub := .ok freshProSub
    listSchedules := .ok []
    releaseScheduleSvc := .ok ()
    createSchedule := .ok "sched_1"
    updateSchedule := .ok ()
    updateSub := .error { msg := "not reached" }
    createSetupSessionOnError := .ok { id := "cs_2", url := "https://s2" } }

/-- Counterexample to C1 as stated: a request to move the STUDIO record to
the strictly cheaper PRO plan, issued while the processor-side
subscription is canceled, changes planType synchronously to PRO before the
request returns. -/
theorem downgrade_mutates_planType_on_canceled_sub :
    getPlanPrice "PRO" < getPlanPrice "STUDIO" ∧
    studioRecord.stripeSubscriptionId = some "sub_1" ∧
    studioRecord.planType = "STUDIO" ∧
    ((updateSubscriptionPlanCtrl demoPriceEnv canceledSubEnv
        { planType := "PRO", prorationBehavior := "create_prorations" }
        (some studioRecord)).2.map (fun r => r.planType)) = some "PRO" := by
  refine ⟨by decide, rfl, rfl, ?_⟩
  decide

/-- clearPendingSchedule only touches the metadata bag. -/
theorem clearPendingSchedule_planType (env : PlanChangeEnv)
    (r : SubscriptionRecord) :
    (clearPendingSchedule env r).planType = r.planType := by
  unfold clearPendingSchedule
  rcases h : r.metadata.scheduleId with _ | sid
  · rfl
  · rcases env.releaseSchedule with e | u <;> rfl

/-- clearPendingSchedule leaves the add-on entries unchanged. -/
theorem clearPendingSchedule_activeAddOns (env : PlanChangeEnv)
    (r : SubscriptionRecord) :
    (clearPendingSchedule env r).activeAddOns = r.activeAddOns := by
  unfold clearPendingSchedule
  rcases h : r.metadata.scheduleId with _ | sid
  · rfl
  · rcases env.releaseSchedule with e | u <;> rfl

/-- A record without a pending schedule passes clearPendingSchedule
unchanged. -/
theorem clearPendingSchedule_of_none (env : PlanChangeEnv)
    (r : SubscriptionRecord) (h : r.metadata.scheduleId = none) :
    clearPendingSchedule env r = r := by
  unfold clearPendingSchedule
  rw [h]

/-- A downgrade never enters the payment-method verification. -/
theorem paymentCheck_not_upgrade (env : PlanChangeEnv) (p : Int) :
    paymentCheck env false p = .proceed := by
  unfold paymentCheck
  simp

/-- The downgrade classification of a strictly cheaper target. -/
theorem comparePlans_isUpgrade_false (current target : String)
    (h : getPlanPrice target < getPlanPrice current) :
    (comparePlans current target).isUpgrade = false := by
  unfold comparePlans
  simp only [decide_eq_false_iff_not, not_lt, sub_nonpos]
  exact le_of_lt h

/-- Whatever happens inside the request, the stored record returned by
updateSubscriptionPlan for a located record is the stored state of its
body: the catch handler reloads the saved state and never writes. -/
theorem updateSubscriptionPlanCtrl_snd (penv : PriceEnv)
    (env : PlanChangeEnv) (req : PlanChangeReq) (r0 : SubscriptionRecord) :
    (updateSubscriptionPlanCtrl penv env req (some r0)).2
      = some (updateSubscriptionPlanBody penv env req r0).stored := by
  unfold updateSubscriptionPlanCtrl
  dsimp only
  rcases h : updateSubscriptionPlanBody penv env req r0 with ⟨resp, db⟩ | ⟨e, db⟩
  · rfl
  · dsimp only
    split
    · rcases hcust : db.stripeCustomerId with _ | c
      · rfl
      · rcases hsess : env.createSetupSessionOnError with e2 | s <;> rfl
    · rfl

/-- On the downgrade side the service either throws or returns a
scheduled change, provided the current Stripe price differs from the
target price reference. -/
theorem svcUpdate_downgrade_cases (env : PlanChangeEnv)
    (subId newPriceId : String)
    (hpr : ∀ ss it, env.retrieveSub = .ok ss → ss.items0 = some it →
      it.2 ≠ newPriceId) :
    (∃ e, svcUpdateSubscriptionPlan env subId newPriceId true = .error e) ∨
    (∃ res, svcUpdateSubscriptionPlan env subId newPriceId true = .ok res ∧
      res.scheduledChange.isSome = true) := by
  unfold svcUpdateSubscriptionPlan
  rcases hsub : env.retrieveSub with e | cur
  · exact Or.inl ⟨_, rfl⟩
  rcases hitems : cur.items0 with _ | item
  · simp only [hitems]
    exact Or.inl ⟨_, rfl⟩
  simp only [hitems]
  have hne : item.2 ≠ newPriceId := hpr cur item hsub hitems
  simp only [if_neg hne, if_true]
  rcases hls : env.listSchedules with e | schedules
  · exact Or.inl ⟨_, rfl⟩
  rcases hras : releaseActiveSchedules env subId schedules with e | u
  · simp only [hras]
    exact Or.inl ⟨_, rfl⟩
  simp only [hras]
  rcases hcs : env.createSchedule with e | scheduleId
  · exact Or.inl ⟨_, rfl⟩
  rcases hus : env.updateSchedule with e | u2
  · exact Or.inl ⟨_, rfl⟩
  exact Or.inr ⟨_, rfl, rfl⟩

/-- On the downgrade side, the whole service flow either throws (leaving
the stored state alone) or stores only the pending-change metadata; it
never falls through to an immediate update when the current Stripe price
differs from the target price reference. -/
theorem serviceFlow_downgrade_cases (env : PlanChangeEnv)
    (req : PlanChangeReq) (subId newPriceId : String)
    (mem db : SubscriptionRecord)
    (hpr : ∀ ss it, env.retrieveSub = .ok ss → ss.items0 = some it →
      it.2 ≠ newPriceId) :
    (∃ e, serviceFlow env req subId newPriceId false mem db
        = .thrown e db) ∨
    (∃ sc, serviceFlow env req subId newPriceId false mem db
        = .done (okResponse "downgrade") (downgradeScheduledUpdate req sc mem)) := by
  unfold serviceFlow
  rcases svcUpdate_downgrade_cases env subId newPriceId hpr with
    ⟨e, he⟩ | ⟨res, hres, hsome⟩
  · rw [show (!false) = true from rfl, he]
    exact Or.inl ⟨e, rfl⟩
  · obtain ⟨sc, hsc⟩ := Option.isSome_iff_exists.mp hsome
    refine Or.inr ⟨sc, ?_⟩
    rw [show (!false) = true from rfl, hres]
    simp only [hsc]
    simp

/-- C1 (amended): a plan-change request to a strictly cheaper target never
changes planType synchronously, provided the processor-side subscription
is not retrieved as canceled and its current price differs from the
target price reference (the canceled-recreation branch and the
price-already-matching fallthrough are the two code paths that do change
it synchronously). -/
theorem updateSubscriptionPlan_downgrade_keeps_planType (penv : PriceEnv)
    (env : PlanChangeEnv) (req : PlanChangeReq) (rec : SubscriptionRecord)
    (subId : String)
    (_hsub : rec.stripeSubscriptionId = some subId)
    (hdown : getPlanPrice req.planType < getPlanPrice rec.planType)
    (hnc : ∀ ss, env.retrieveSub = .ok ss → ss.status ≠ "canceled")
    (hpr : ∀ ss it, env.retrieveSub = .ok ss → ss.items0 = some it →
      getStripePriceId penv req.planType ≠ some it.2) :
    ∀ db, (updateSubscriptionPlanCtrl penv env req (some rec)).2 = some db →
      db.planType = rec.planType := by
  intro db hdb
  rw [updateSubscriptionPlanCtrl_snd] at hdb
  have hdb2 : db = (updateSubscriptionPlanBody penv env req rec).stored := by
    injection hdb with h
    exact h.symm
  subst hdb2
  have hup : (comparePlans rec.planType req.planType).isUpgrade = false :=
    comparePlans_isUpgrade_false rec.planType req.planType hdown
  have hpl1 : (clearPendingSchedule env rec).planType = rec.planType :=
    clearPendingSchedule_planType env rec
  unfold updateSubscriptionPlanBody
  split
  · rfl
  split
  · rfl
  split
  · rfl
  next subId2 hsub2 =>
  split
  · rfl
  split
  · rfl
  next newPriceId hprice =>
  have hpr2 : ∀ ss it, env.retrieveSub = .ok ss → ss.items0 = some it →
      it.2 ≠ newPriceId := by
    intro ss it hss hit heq
    apply hpr ss it hss hit
    unfold getPriceIdForPlan at hprice
    rcases hg : getStripePriceId penv req.planType with _ | pid
    · rw [hg] at hprice
      cases hprice
    · rw [hg] at hprice
      cases hprice
      rw [heq]
  rw [hup, paymentCheck_not_upgrade]
  have hflow := serviceFlow_downgrade_cases env req subId2 newPriceId
    (clearPendingSchedule env rec) (clearPendingSchedule env rec) hpr2
  rcases hss : env.retrieveSub with e | ss
  · dsimp only
    rcases hflow with ⟨e2, hf⟩ | ⟨sc, hf⟩ <;> rw [hf] <;>
      simp [CtrlFlow.stored, downgradeScheduledUpdate, hpl1]
  · dsimp only
    rw [if_neg (hnc ss hss)]
    rcases hflow with ⟨e2, hf⟩ | ⟨sc, hf⟩ <;> rw [hf] <;>
      simp [CtrlFlow.stored, downgradeScheduledUpdate, hpl1]

/-- An environment in which the Stripe subscription is active on the
STUDIO price and the downgrade schedule is created successfully. -/
def scheduledDowngradeEnv : PlanChangeEnv :=
  { canceledSubEnv with retrieveSub := .ok activeStudioSub }

/-- Metadata of the downgrade to PRO scheduled as sched_1 effective at
period end 200. -/
def scheduledProMeta : RecordMetadata :=
  { pendingPlanChange := some "PRO"
    pendingChangeDate := some 200
    scheduleId := some "sched_1" }

/-- The STUDIO record as stored after the scheduled downgrade to PRO:
only the pending-change metadata has been written. -/
def scheduledStudioRecord : SubscriptionRecord :=
  { studioRecord with metadata := scheduledProMeta }

/-- Witness for the amended C1 at a concrete scheduled downgrade
STUDIO to PRO: planType is still STUDIO when the request returns. -/
theorem updateSubscriptionPlan_downgrade_keeps_planType_witness :
    scheduledStudioRecord.planType = "STUDIO" :=
  updateSubscriptionPlan_downgrade_keeps_planType demoPriceEnv
    scheduledDowngradeEnv
    { planType := "PRO", prorationBehavior := "create_prorations" }
    studioRecord "sub_1" rfl (by decide)
    (by
      intro ss hss
      have h2 : (Except.ok activeStudioSub : Except JsError StripeSub)
          = .ok ss := hss
      injection h2 with h3
      subst h3
      decide)
    (by
      intro ss it hss hit
      have h2 : (Except.ok activeStudioSub : Except JsError StripeSub)
          = .ok ss := hss
      injection h2 with h3
      subst h3
      have h4 : some ("si_1", "price_studio") = some it := hit
      injection h4 with h5
      subst h5
      decide)
    scheduledStudioRecord (by decide)

/-! ## Claim C7 -/

/-- Metadata of a pending scheduled downgrade to FREE. -/
def pendingFreeMeta : RecordMetadata :=
  { pendingPlanChange := some "FREE"
    pendingChangeDate := some 200
    scheduleId := some "sched_0" }

/-- A PRO subscriber with a pending scheduled downgrade to FREE recorded
in the metadata. -/
def pendingProRecord : SubscriptionRecord :=
  { demoRecord with
    activeAddOns := []
    metadata := pendingFreeMeta }

/-- An environment in which the customer has no payment method at all and
the setup session is created successfully. -/
def noPmEnv : PlanChangeEnv :=
  { retrieveCustomer := .ok { hasDefaultPaymentMethod := false }
    listPaymentMethods := .ok []
    createSetupSession := .ok { id := "cs_9", url := "https://setup9" }
    releaseSchedule := .ok ()
    retrieveSub := .error { msg := "Failed to retrieve subscription" }
    createSub := .error { msg := "not reached" }
    listSchedules := .ok []
    releaseScheduleSvc := .ok ()
    createSchedule := .ok "sched_1"
    updateSchedule := .ok ()
    updateSub := .error { msg := "not reached" }
    createSetupSessionOnError := .ok { id := "cs_2", url := "https://s2" } }

/-- Counterexample to C7 as stated: an upgrade request to STUDIO by the
PRO subscriber holding a pending downgrade schedule returns
PAYMENT_METHOD_REQUIRED, but the stored record is no longer the record
held at the start of the request: the pending-change metadata has been
cleared and saved before the suspension was returned. -/
theorem paymentMethodRequired_mutates_record :
    (updateSubscriptionPlanCtrl demoPriceEnv noPmEnv
        { planType := "STUDIO", prorationBehavior := "create_prorations" }
        (some pendingProRecord)).1.errorCode
      = some "PAYMENT_METHOD_REQUIRED" ∧
    (updateSubscriptionPlanCtrl demoPriceEnv noPmEnv
        { planType := "STUDIO", prorationBehavior := "create_prorations" }
        (some pendingProRecord)).2 ≠ some pendingProRecord := by
  constructor
  · decide
  · decide

/-- Every successful outcome of the shared service flow is an ok response
without an error code. -/
theorem serviceFlow_done_errorCode (env : PlanChangeEnv)
    (req : PlanChangeReq) (subId newPriceId : String) (isUp : Bool)
    (mem dbp : SubscriptionRecord) :
    ∀ resp db, serviceFlow env req subId newPriceId isUp mem dbp
        = .done resp db → resp.errorCode = none := by
  intro resp db h
  unfold serviceFlow at h
  split at h
  · cases h
  · split at h
    · split at h
      · cases h
        rfl
      · cases h
        rfl
    · cases h
      rfl

/-- A throw inside the shared service flow leaves the stored state at the
value it had when the flow was entered. -/
theorem serviceFlow_thrown_db (env : PlanChangeEnv)
    (req : PlanChangeReq) (subId newPriceId : String) (isUp : Bool)
    (mem dbp : SubscriptionRecord) :
    ∀ e db, serviceFlow env req subId newPriceId isUp mem dbp
        = .thrown e db → db = dbp := by
  intro e db h
  unfold serviceFlow at h
  split at h
  · cases h
    rfl
  · split at h
    · split at h
      · cases h
      · cases h
    · cases h

/-- C7 (amended): whenever a plan-change request returns the
PAYMENT_METHOD_REQUIRED result, the response carries a setup handle, and
the stored record is unchanged provided the record held no pending
downgrade schedule at the start of the request and the processor-side
subscription was not retrieved as canceled (a recorded schedule is
released and its metadata cleared, and the canceled-recreation branch may
prune add-ons, before the suspension is returned). -/
theorem paymentMethodRequired_leaves_record_unchanged (penv : PriceEnv)
    (env : PlanChangeEnv) (req : PlanChangeReq) (rec : SubscriptionRecord)
    (hsched : rec.metadata.scheduleId = none)
    (hnc : ∀ ss, env.retrieveSub = .ok ss → ss.status ≠ "canceled") :
    ∀ resp db,
      updateSubscriptionPlanCtrl penv env req (some rec) = (resp, db) →
      resp.errorCode = some "PAYMENT_METHOD_REQUIRED" →
      resp.setupUrl.isSome = true ∧ resp.setupSessionId.isSome = true ∧
        db = some rec := by
  have hr1 : clearPendingSchedule env rec = rec :=
    clearPendingSchedule_of_none env rec hsched
  have hbody : (∀ resp db,
        updateSubscriptionPlanBody penv env req rec = .done resp db →
        resp.errorCode = some "PAYMENT_METHOD_REQUIRED" →
        resp.setupUrl.isSome = true ∧ resp.setupSessionId.isSome = true ∧
          db = rec) ∧
      (∀ e db, updateSubscriptionPlanBody penv env req rec = .thrown e db →
        db = rec) := by
    constructor
    · intro resp db hb hpm
      unfold updateSubscriptionPlanBody at hb
      simp only [hr1] at hb
      split at hb
      · cases hb
        simp [errResponse] at hpm
      split at hb
      · cases hb
        simp [errResponse] at hpm
      split at hb
      · cases hb
        simp [errResponse] at hpm
      split at hb
      · cases hb
        simp [errResponse] at hpm
      split at hb
      · cases hb
      next newPriceId hprice =>
      split at hb
      · cases hb
      · next resp2 hpc =>
        cases hb
        unfold paymentCheck at hpc
        split at hpc
        · split at hpc
          · cases hpc
          · split at hpc
            · cases hpc
            · split at hpc
              · cases hpc
              · split at hpc
                · cases hpc
                · split at hpc
                  · cases hpc
                    simp [paymentMethodRequiredResponse]
                  · cases hpc
                    simp [errResponse] at hpm
        · cases hpc
      · split at hb
        next ss hss =>
          split at hb
          · exact absurd (by assumption) (hnc ss hss)
          · have := serviceFlow_done_errorCode env req _ newPriceId _ rec rec
              resp db hb
            rw [this] at hpm
            cases hpm
        · have := serviceFlow_done_errorCode env req _ newPriceId _ rec rec
            resp db hb
          rw [this] at hpm
          cases hpm
    · intro e db hb
      unfold updateSubscriptionPlanBody at hb
      simp only [hr1] at hb
      split at hb
      · cases hb
      split at hb
      · cases hb
      split at hb
      · cases hb
      split at hb
      · cases hb
      split at hb
      · cases hb
        rfl
      next newPriceId hprice =>
      split at hb
      · next e2 hpc =>
        cases hb
        rfl
      · cases hb
      · split at hb
        next ss hss =>
          split at hb
          · exact absurd (by assumption) (hnc ss hss)
          · exact serviceFlow_thrown_db env req _ newPriceId _ rec rec e db hb
        · exact serviceFlow_thrown_db env req _ newPriceId _ rec rec e db hb
  intro resp db hctrl hpm
  unfold updateSubscriptionPlanCtrl at hctrl
  dsimp only at hctrl
  rcases hb : updateSubscriptionPlanBody penv env req rec with
    ⟨resp2, db2⟩ | ⟨e, db2⟩
  · rw [hb] at hctrl
    dsimp only at hctrl
    injection hctrl with hA hB
    subst hA
    subst hB
    obtain ⟨h1, h2, h3⟩ := hbody.1 _ _ hb hpm
    exact ⟨h1, h2, by rw [h3]⟩
  · rw [hb] at hctrl
    have hdb2 : db2 = rec := hbody.2 e db2 hb
    subst hdb2
    dsimp only at hctrl
    split at hctrl
    · split at hctrl
      · split at hctrl
        · cases hctrl
          simp [paymentMethodRequiredResponse]
        · cases hctrl
          simp [errResponse] at hpm
      · cases hctrl
        simp [errResponse] at hpm
    · cases hctrl
      simp [errResponse] at hpm

/-- A FREE subscriber with neither add-ons nor pending changes. -/
def freeRecord : SubscriptionRecord :=
  { studioRecord with
    userId := "u4"
    planType := "FREE"
    stripePriceId := some "price_free" }

/-- Witness for the amended C7 at a concrete refused upgrade FREE to PRO
with no payment method: the suspension carries a setup handle and the
stored record is exactly the input record. -/
theorem paymentMethodRequired_leaves_record_unchanged_witness :
    (paymentMethodRequiredResponse
        { id := "cs_9", url := "https://setup9" }).setupUrl.isSome = true ∧
    (paymentMethodRequiredResponse
        { id := "cs_9", url := "https://setup9" }).setupSessionId.isSome
      = true ∧
    (some freeRecord : Option SubscriptionRecord) = some freeRecord :=
  paymentMethodRequired_leaves_record_unchanged demoPriceEnv noPmEnv
    { planType := "PRO", prorationBehavior := "create_prorations" }
    freeRecord rfl
    (by
      intro ss h
      cases h)
    (paymentMethodRequiredResponse { id := "cs_9", url := "https://setup9" })
    (some freeRecord) (by decide) rfl

/-! ## Claim C4 -/

/-- clearPendingSchedule preserves the add-on invariant: it only touches
the metadata. -/
theorem inv_clearPendingSchedule (env : PlanChangeEnv)
    (r : SubscriptionRecord) (h : AddOnInvariant r) :
    AddOnInvariant (clearPendingSchedule env r) := by
  intro e he hact
  rw [clearPendingSchedule_activeAddOns] at he
  rw [clearPendingSchedule_planType]
  exact h e he hact

/-- The conditional save of a pruning step preserves the add-on
invariant. -/
theorem inv_pruneSaveState (r : SubscriptionRecord) (plan : String)
    (h : AddOnInvariant r) : AddOnInvariant (pruneSaveState r plan) := by
  unfold pruneSaveState
  split
  · exact prune_preserves_invariant r plan h
  · exact h

/-- Writing only the pending-change metadata preserves the add-on
invariant. -/
theorem inv_downgradeScheduledUpdate (req : PlanChangeReq)
    (sc : ScheduledChange) (r : SubscriptionRecord)
    (h : AddOnInvariant r) :
    AddOnInvariant (downgradeScheduledUpdate req sc r) := by
  intro e he hact
  exact h e he hact

/-- The immediate-update state establishes the invariant for the target
plan: its add-ons are the pruned ones and its planType is the target. -/
theorem inv_immediateUpdate (req : PlanChangeReq) (p : String)
    (sub : StripeSub) (mem : SubscriptionRecord) :
    AddOnInvariant (immediateUpdate req p sub
      (removeIncompatibleAddOns mem req.planType).2) := by
  intro e he hact
  exact prune_establishes_invariant mem req.planType e he hact

/-- The canceled-recreation state establishes the invariant likewise. -/
theorem inv_newSubscriptionUpdate (req : PlanChangeReq) (p : String)
    (ns : StripeSub) (mem : SubscriptionRecord) :
    AddOnInvariant (newSubscriptionUpdate req p ns
      (removeIncompatibleAddOns mem req.planType).2) := by
  intro e he hact
  exact prune_establishes_invariant mem req.planType e he hact

/-- The schedule-completed update establishes the invariant for the
derived plan. -/
theorem inv_scheduleUpdate (penv : PriceEnv) (sub : StripeSub)
    (r : SubscriptionRecord) :
    AddOnInvariant (scheduleUpdate penv sub r) := by
  intro e he hact
  exact prune_establishes_invariant r
    (getPlanTypeFromPriceId penv sub.priceId) e he hact

/-- The stored state of the shared service flow keeps the add-on
invariant. -/
theorem serviceFlow_stored_invariant (env : PlanChangeEnv)
    (req : PlanChangeReq) (subId newPriceId : String) (isUp : Bool)
    (mem db : SubscriptionRecord) (hmem : AddOnInvariant mem)
    (hdb : AddOnInvariant db) :
    AddOnInvariant
      (serviceFlow env req subId newPriceId isUp mem db).stored := by
  unfold serviceFlow
  split
  · exact hdb
  · split
    · split
      · exact inv_downgradeScheduledUpdate req _ mem hmem
      · exact inv_immediateUpdate req newPriceId _ mem
    · exact inv_immediateUpdate req newPriceId _ mem

/-- The stored state of the whole plan-change body keeps the add-on
invariant. -/
theorem body_stored_invariant (penv : PriceEnv) (env : PlanChangeEnv)
    (req : PlanChangeReq) (rec : SubscriptionRecord)
    (hinv : AddOnInvariant rec) :
    AddOnInvariant (updateSubscriptionPlanBody penv env req rec).stored := by
  have hinv1 : AddOnInvariant (clearPendingSchedule env rec) :=
    inv_clearPendingSchedule env rec hinv
  unfold updateSubscriptionPlanBody
  split
  · exact hinv
  split
  · exact hinv
  split
  · exact hinv
  next subId2 hsub2 =>
  split
  · exact hinv
  split
  · exact hinv
  next newPriceId hprice =>
  split
  · exact hinv1
  · exact hinv1
  · split
    · next ss hss =>
      split
      · split
        · exact inv_pruneSaveState _ _ hinv1
        · exact inv_newSubscriptionUpdate req newPriceId _ _
      · exact serviceFlow_stored_invariant env req subId2 newPriceId _
          (clearPendingSchedule env rec) (clearPendingSchedule env rec)
          hinv1 hinv1
    · exact serviceFlow_stored_invariant env req subId2 newPriceId _
        (clearPendingSchedule env rec) (clearPendingSchedule env rec)
        hinv1 hinv1

/-- Updating the first matching record of a list preserves any property
that holds for the untouched records and for the image of every record. -/
theorem updateFirst_forall (P : SubscriptionRecord → Prop)
    (test : SubscriptionRecord → Bool)
    (f : SubscriptionRecord → SubscriptionRecord) :
    ∀ l : List SubscriptionRecord, (∀ x ∈ l, P x) → (∀ x ∈ l, P (f x)) →
      ∀ y ∈ updateFirst test f l, P y := by
  intro l
  induction l with
  | nil =>
    intro _ _ y hy
    simp [updateFirst] at hy
  | cons r rs ih =>
    intro h1 h2 y hy
    unfold updateFirst at hy
    by_cases ht : test r = true
    · simp only [ht, if_true] at hy
      rcases List.mem_cons.mp hy with h | h
      · subst h
        exact h2 r (List.mem_cons_self r rs)
      · exact h1 y (List.mem_cons_of_mem r h)
    · simp only [if_neg ht] at hy
      rcases List.mem_cons.mp hy with h | h
      · rw [h]
        exact h1 r (List.mem_cons_self r rs)
      · exact ih (fun x hx => h1 x (List.mem_cons_of_mem r hx))
          (fun x hx => h2 x (List.mem_cons_of_mem r hx)) y h

/-- The subscription payload of a subscription-updated event carrying the
FREE price. -/
def freeSubPayload : StripeSub :=
  { id := "sub_1"
    customer := "cus_1"
    status := "active"
    items0 := some ("si_1", "price_free")
    currentPeriodStart := 100
    currentPeriodEnd := 200
    cancelAtPeriodEnd := false }

/-- Counterexample to C4 as stated: the subscription-updated handler,
applied to a PRO record holding the active promotedBeat add-on (the
invariant holds) and an event carrying the FREE price, moves planType to
FREE without pruning, leaving promotedBeat active although it is not
available for FREE: the invariant is broken by a webhook handler. -/
theorem subscriptionUpdated_breaks_addon_invariant :
    AddOnInvariant demoRecord ∧
    handleSubscriptionUpdated demoPriceEnv freeSubPayload [demoRecord]
      = [applySubUpdate demoPriceEnv freeSubPayload demoRecord] ∧
    (applySubUpdate demoPriceEnv freeSubPayload demoRecord).planType
      = "FREE" ∧
    ¬ AddOnInvariant (applySubUpdate demoPriceEnv freeSubPayload demoRecord)
    := by
  refine ⟨by decide, by decide, by decide, by decide⟩

/-- C4 (amended): the plan-change orchestration path and the
schedule-completed handler preserve the invariant that every status=active
add-on entry names an add-on available for the current planType (they
prune before or together with every planType write); the
subscription-created/updated handler does not prune, and preserves the
invariant only when every active add-on of the located record is available
for the plan derived from the event price. -/
theorem mutating_paths_addon_invariant :
    (∀ (penv : PriceEnv) (env : PlanChangeEnv) (req : PlanChangeReq)
        (rec : SubscriptionRecord), AddOnInvariant rec →
      ∀ db, (updateSubscriptionPlanCtrl penv env req (some rec)).2 = some db →
        AddOnInvariant db) ∧
    (∀ (penv : PriceEnv) (env : WebhookEnv) (p : SchedulePayload)
        (db : List SubscriptionRecord), (∀ r ∈ db, AddOnInvariant r) →
      ∀ r2 ∈ (handleScheduleCompleted penv env p db).db, AddOnInvariant r2) ∧
    (∀ (penv : PriceEnv) (p : StripeSub) (db : List SubscriptionRecord),
      (∀ r ∈ db, AddOnInvariant r) →
      (∀ r ∈ db, ∀ e ∈ r.activeAddOns, e.status = "active" →
        isAddOnAvailableForPlan e.name
          (getPlanTypeFromPriceId penv p.priceId) = true) →
      ∀ r2 ∈ handleSubscriptionUpdated penv p db, AddOnInvariant r2) := by
  refine ⟨?_, ?_, ?_⟩
  · intro penv env req rec hinv db hdb
    rw [updateSubscriptionPlanCtrl_snd] at hdb
    injection hdb with h
    rw [← h]
    exact body_stored_invariant penv env req rec hinv
  · intro penv env p db h r2 hr2
    unfold handleScheduleCompleted at hr2
    split at hr2
    · exact h r2 hr2
    · split at hr2
      · exact h r2 hr2
      · split at hr2
        · exact h r2 hr2
        · exact updateFirst_forall AddOnInvariant _ _ db h
            (fun x _ => inv_scheduleUpdate penv _ x) r2 hr2
  · intro penv p db h1 h2 r2 hr2
    refine updateFirst_forall AddOnInvariant _ _ db h1 ?_ r2 hr2
    intro x hx e he hact
    exact h2 x hx e he hact

/-- The subscription payload of a subscription-updated event carrying the
PRO price. -/
def proSubPayload : StripeSub :=
  { freeSubPayload with items0 := some ("si_1", "price_pro") }

/-- Witness for the amended C4: a subscription-updated event carrying the
PRO price applied to the PRO demo record (all of whose active add-ons are
available for PRO) keeps the invariant. -/
theorem mutating_paths_addon_invariant_witness :
    AddOnInvariant (applySubUpdate demoPriceEnv proSubPayload demoRecord) :=
  mutating_paths_addon_invariant.2.2 demoPriceEnv proSubPayload [demoRecord]
    (by decide) (by decide)
    (applySubUpdate demoPriceEnv proSubPayload demoRecord) (by decide)

/-! ## The user-deletion consumer (Kafka service, processEvent)

The USER_DELETED case of processEvent: for every matching record,
best-effort cancel its Stripe subscription and delete the record, each
record wrapped in its own try/catch; after the loop, one entitlement
contract deletion per user. The embedding records the sequence of external
calls the consumer attempts. -/

/-- External calls attempted by the deletion consumer, in order. -/
inductive DeletionCall where
  | stripeCancel (subscriptionId : String)
  | dbDelete (record : SubscriptionRecord)
  | spaceDelete (userId : String)
deriving DecidableEq, Repr

/-- Whether a call is the entitlement contract deletion. -/
def isSpaceDelete : DeletionCall → Bool
  | .spaceDelete _ => true
  | _ => false

/-- Per-record oracles of the deletion loop. -/
structure DeletionEnv where
  cancelOk : String → Bool

/-- The calls attempted by the USER_DELETED loop body followed by the
single entitlement deletion: when the record has a subscription ref its
cancellation is attempted first and a cancellation throw skips the local
delete of that record only; the loop then continues with the next
record. -/
def processUserDeletedCalls (env : DeletionEnv) (userId : String) :
    List SubscriptionRecord → List DeletionCall
  | [] => [.spaceDelete userId]
  | r :: rs =>
    (match r.stripeSubscriptionId with
     | some sid =>
       if env.cancelOk sid then [.stripeCancel sid, .dbDelete r]
       else [.stripeCancel sid]
     | none => [.dbDelete r]) ++ processUserDeletedCalls env userId rs

/-- An inbound event of the users-events stream. -/
structure KafkaEvent where
  type : String
  userId : String
deriving DecidableEq, Repr

/-- processEvent: the USER_DELETED case runs the deletion loop over the
matching records; unknown event kinds are logged and produce no calls. -/
def processEvent (env : DeletionEnv) (ev : KafkaEvent)
    (records : List SubscriptionRecord) : List DeletionCall :=
  if ev.type = "USER_DELETED" then
    processUserDeletedCalls env ev.userId records
  else []

/-- The calls one record of the loop gives rise to, in isolation. -/
def recordDeletionCalls (env : DeletionEnv) (r : SubscriptionRecord) :
    List DeletionCall :=
  match r.stripeSubscriptionId with
  | some sid =>
    if env.cancelOk sid then [.stripeCancel sid, .dbDelete r]
    else [.stripeCancel sid]
  | none => [.dbDelete r]

/-- One record of the loop never issues an entitlement deletion. -/
theorem recordDeletionCalls_no_space (env : DeletionEnv)
    (r : SubscriptionRecord) :
    (recordDeletionCalls env r).filter isSpaceDelete = [] := by
  unfold recordDeletionCalls
  rcases r.stripeSubscriptionId with _ | sid
  · simp [isSpaceDelete]
  · by_cases h : env.cancelOk sid = true <;> simp [h, isSpaceDelete]

/-- The deletion loop is the independent concatenation of the per-record
call lists followed by the single entitlement deletion. -/
theorem processUserDeletedCalls_eq (env : DeletionEnv) (userId : String) :
    ∀ records, processUserDeletedCalls env userId records
      = (records.flatMap (recordDeletionCalls env))
          ++ [DeletionCall.spaceDelete userId] := by
  intro records
  induction records with
  | nil => rfl
  | cons r rs ih =>
    unfold processUserDeletedCalls
    rw [ih]
    simp [recordDeletionCalls, List.flatMap_cons, List.append_assoc]

/-- No record of the loop ever issues an entitlement deletion. -/
theorem flatMap_recordDeletionCalls_no_space (env : DeletionEnv) :
    ∀ records : List SubscriptionRecord,
      ((records.flatMap (recordDeletionCalls env)).filter isSpaceDelete)
        = [] := by
  intro records
  induction records with
  | nil => rfl
  | cons r rs ih =>
    rw [List.flatMap_cons, List.filter_append,
      recordDeletionCalls_no_space, ih]
    rfl

/-- C9: a USER_DELETED event with any number of matching records issues
exactly one entitlement contract deletion, for that userId, and the calls
of the loop are the independent concatenation of the per-record calls: a
cancellation or deletion failure on one record never suppresses the
processing of the remaining records. -/
theorem processEvent_userDeleted_spec (env : DeletionEnv) (ev : KafkaEvent)
    (records : List SubscriptionRecord) (h : ev.type = "USER_DELETED") :
    ((processEvent env ev records).filter isSpaceDelete).length = 1 ∧
    processEvent env ev records
      = (records.flatMap (recordDeletionCalls env))
          ++ [DeletionCall.spaceDelete ev.userId] := by
  have heq := processUserDeletedCalls_eq env ev.userId records
  constructor
  · unfold processEvent
    rw [if_pos h, heq, List.filter_append,
      flatMap_recordDeletionCalls_no_space]
    rfl
  · unfold processEvent
    rw [if_pos h, heq]

/-- Witness for C9 at a concrete event with two matching records, the
second of which fails its Stripe cancellation: still exactly one
entitlement deletion. -/
theorem processEvent_userDeleted_spec_witness :
    ((processEvent { cancelOk := fun sid => sid = "sub_1" }
        { type := "USER_DELETED", userId := "u1" }
        [demoRecord, studioRecord]).filter isSpaceDelete).length = 1 :=
  (processEvent_userDeleted_spec { cancelOk := fun sid => sid = "sub_1" }
    { type := "USER_DELETED", userId := "u1" }
    [demoRecord, studioRecord] rfl).1

/-! ## The webhook endpoint (handleWebhook)

handleWebhook (subscriptionController.js lines 1144-1219) reads the free
identifier webhookSecret on its first line. That identifier is declared
nowhere in the module (nor in stripeService.js, whose
verifyWebhookSignature reads it too; only the legacy copy of the Stripe
service declares it), so in an ES module the first statement of the try
block raises a ReferenceError, which the catch turns into a 400 response
for every delivery. The embedding models that read explicitly; the code
after it is modelled as written but is unreachable. -/

/-- The read of the undeclared identifier webhookSecret: a
ReferenceError. -/
def webhookSecretLookup : Except JsError (Option String) :=
  .error { msg := "webhookSecret is not defined" }

/-- A webhook event after parsing: its type string and its data object. -/
inductive EventObj where
  | checkout (s : CheckoutSession)
  | sub (s : StripeSub)
  | invoice (i : InvoicePayload)
  | schedule (p : SchedulePayload)
  | other
deriving Repr

/-- A parsed webhook event. -/
structure WebhookEvent where
  type : String
  obj : EventObj
deriving Repr

/-- One webhook delivery: the signature header, the JSON.parse result of
the raw body (none models a parse throw), the result signature
verification would give, and the NODE_ENV flag. -/
structure WebhookReq where
  signature : Option String
  parsedBody : Option WebhookEvent
  verified : Except JsError WebhookEvent
  nodeEnvProduction : Bool
deriving Repr

/-- stripeService.verifyWebhookSignature: its try block reads the
undeclared webhookSecret first, so its catch always rethrows the invalid
signature error; the dummy-secret parse path and the verification proper
are modelled but unreachable. -/
def verifyWebhookSignature (req : WebhookReq) :
    Except JsError WebhookEvent :=
  match webhookSecretLookup with
  | .error _ => .error { msg := "Invalid webhook signature" }
  | .ok ws =>
    match ws with
    | none =>
      match req.parsedBody with
      | none => .error { msg := "Invalid webhook signature" }
      | some ev => .ok ev
    | some s =>
      if jsIncludes s "your_webhook_secret_here" ∨ jsIncludes s "dummy" then
        match req.parsedBody with
        | none => .error { msg := "Invalid webhook signature" }
        | some ev => .ok ev
      else req.verified

/-- The handler outcome of a delivery that does nothing. -/
def noopOutcome (db : List SubscriptionRecord) : HandlerOutcome :=
  { db := db, thrown := none, spaceCalls := [] }

/-- The event switch of handleWebhook, routed by type string; unhandled
types are logged and fall through to the acknowledgement. -/
def dispatchEvent (penv : PriceEnv) (wenv : WebhookEnv) (ev : WebhookEvent)
    (db : List SubscriptionRecord) : HandlerOutcome :=
  if ev.type = "checkout.session.completed" then
    match ev.obj with
    | .checkout s => handleCheckoutCompleted penv wenv s db
    | _ => noopOutcome db
  else if ev.type = "customer.subscription.created" ∨
      ev.type = "customer.subscription.updated" then
    match ev.obj with
    | .sub s => handleSubscriptionUpdatedO penv s db
    | _ => noopOutcome db
  else if ev.type = "customer.subscription.deleted" then
    match ev.obj with
    | .sub s => handleSubscriptionDeleted penv wenv s db
    | _ => noopOutcome db
  else if ev.type = "invoice.payment_succeeded" then
    match ev.obj with
    | .invoice i => handlePaymentSucceeded i db
    | _ => noopOutcome db
  else if ev.type = "invoice.payment_failed" then
    match ev.obj with
    | .invoice i => handlePaymentFailed i db
    | _ => noopOutcome db
  else if ev.type = "subscription_schedule.completed" ∨
      ev.type = "subscription_schedule.released" then
    match ev.obj with
    | .schedule p => handleScheduleCompleted penv wenv p db
    | _ => noopOutcome db
  else noopOutcome db

/-- Response of the webhook endpoint. -/
structure WebhookResponse where
  status : Nat
  errorCode : Option String
deriving DecidableEq, Repr

/-- Run the switch and acknowledge with 200, unless the routed handler
rethrew, in which case the catch answers 400. -/
def runDispatch (penv : PriceEnv) (wenv : WebhookEnv) (ev : WebhookEvent)
    (db : List SubscriptionRecord) :
    WebhookResponse × List SubscriptionRecord :=
  match dispatchEvent penv wenv ev db with
  | out =>
    match out.thrown with
    | some _ => ({ status := 400, errorCode := some "WEBHOOK_ERROR" }, out.db)
    | none => ({ status := 200, errorCode := none }, out.db)

/-- handleWebhook: the first statement of the try block computes
isDummySecret from the undeclared webhookSecret, so every delivery lands
in the catch with a 400 WEBHOOK_ERROR; the development parse path, the
MISSING_SIGNATURE rejection, the verification and the dispatch are
modelled as written but unreachable. -/
def handleWebhook (penv : PriceEnv) (wenv : WebhookEnv) (req : WebhookReq)
    (db : List SubscriptionRecord) :
    WebhookResponse × List SubscriptionRecord :=
  match webhookSecretLookup with
  | .error _ => ({ status := 400, errorCode := some "WEBHOOK_ERROR" }, db)
  | .ok ws =>
    if req.signature = none ∧
        (ws = none ∨ ws = some "whsec_your_webhook_secret_here") ∧
        ¬req.nodeEnvProduction then
      match req.parsedBody with
      | none => ({ status := 400, errorCode := some "WEBHOOK_ERROR" }, db)
      | some ev => runDispatch penv wenv ev db
    else if req.signature = none then
      ({ status := 400, errorCode := some "MISSING_SIGNATURE" }, db)
    else
      match verifyWebhookSignature req with
      | .error _ => ({ status := 400, errorCode := some "WEBHOOK_ERROR" }, db)
      | .ok ev => runDispatch penv wenv ev db

/-- A webhook environment whose Stripe calls all succeed. -/
def okWebhookEnv : WebhookEnv :=
  { retrieveSub := .ok proSubPayload
    createFreeSub := .ok freshProSub
    now := 0 }

/-- A well-formed subscription-updated event carrying the PRO price. -/
def c6Event : WebhookEvent :=
  { type := "customer.subscription.updated"
    obj := .sub proSubPayload }

/-- A parseable, dev-mode-deliverable delivery of that event, matching the
demo record. -/
def c6Req : WebhookReq :=
  { signature := none
    parsedBody := some c6Event
    verified := .ok c6Event
    nodeEnvProduction := false }

/-- C6 evaluated at the failing input: the webhook endpoint as written
answers 400 WEBHOOK_ERROR even for this perfectly parseable
subscription-updated event whose handler would succeed, because the try
block begins by reading the undeclared webhookSecret; nothing is ever
acknowledged with 200. -/
theorem webhook_never_acknowledges :
    (handleWebhook demoPriceEnv okWebhookEnv c6Req [demoRecord]).1.status
        = 400 ∧
    (handleWebhook demoPriceEnv okWebhookEnv c6Req [demoRecord]).1.errorCode
        = some "WEBHOOK_ERROR" ∧
    (handleWebhook demoPriceEnv okWebhookEnv c6Req [demoRecord]).2
        = [demoRecord] := by
  refine ⟨rfl, rfl, rfl⟩

end SocialBeats
